import Mathlib

/-!
Verification of the file-intake service
(`distributed-apps/distributed-file-manager/sync-service.py`).

The whole service is one Flask handler:

    @app.route('/sync', methods=['POST'])
    def sync_file():
        file = request.files['file']
        file.save(os.path.join('/shared', file.filename))
        return 'File synced successfully', 200

We shallowly embed it:
* paths are lists of characters, byte contents are lists of naturals;
* `posixJoin` embeds `os.path.join` (POSIX semantics, two arguments);
* the filesystem is a map from paths to contents together with an
  OS-level writability oracle; `FS.save` embeds
  `werkzeug.FileStorage.save` (opening a path that ends in the
  separator, i.e. a directory, fails with `IsADirectoryError`;
  otherwise the write succeeds exactly when the OS permits it);
* `sync_file` embeds the handler together with the surrounding Flask
  dispatch: a missing `'file'` part makes `request.files['file']`
  raise `BadRequestKeyError`, which Flask converts to an HTTP 400
  response; an exception escaping the handler (a failed save) is
  converted to an HTTP 500 response.  Error response bodies are
  framework defaults and abbreviated here; only the status code and
  the literal success body are contractual.
-/

namespace SyncService

/-- Byte content of an uploaded file. -/
abbrev Bytes := List Nat

/-- A filesystem path, as a sequence of characters. -/
abbrev Path := List Char

/-- The POSIX path separator. -/
def sep : Char := '/'

/-- Does the path start with the separator (Python `b.startswith('/')`)? -/
def startsWithSep : Path → Bool
  | [] => false
  | c :: _ => c = sep

/-- Does the path end with the separator (Python `path.endswith('/')`)? -/
def endsWithSep : Path → Bool
  | [] => false
  | [c] => c = sep
  | _ :: c :: rest => endsWithSep (c :: rest)

/-- `os.path.join(a, b)` for POSIX paths: an absolute second argument
discards the first; otherwise the parts are joined, inserting the
separator unless the first part is empty or already ends with it. -/
def posixJoin (a b : Path) : Path :=
  if startsWithSep b then b
  else if a = [] ∨ endsWithSep a then a ++ b
  else a ++ [sep] ++ b

/-- Split a path at separators (keeping empty chunks, like
`str.split('/')`). -/
def splitSep : Path → List Path
  | [] => [[]]
  | c :: rest =>
    if c = sep then [] :: splitSep rest
    else
      match splitSep rest with
      | [] => [[c]]
      | s :: ss => (c :: s) :: ss

/-- Normalise a list of path segments of an absolute path: drop `.`,
let `..` pop the previous segment (at the root, `/..` stays at the
root).  `acc` holds the processed segments in reverse. -/
def normSegs (acc : List Path) : List Path → List Path
  | [] => acc.reverse
  | s :: rest =>
    if s = ['.'] then normSegs acc rest
    else if s = ['.', '.'] then normSegs acc.tail rest
    else normSegs (s :: acc) rest

/-- The segments of the fully resolved form of an absolute path. -/
def resolveAbs (p : Path) : List Path :=
  normSegs [] ((splitSep p).filter (fun s => s ≠ []))

/-- Does absolute path `p` resolve to the root `root` itself or to a
descendant of it? -/
def withinRoot (p root : Path) : Bool :=
  (resolveAbs root).isPrefixOf (resolveAbs p)

/-- One part of a multipart request body: the client-declared filename
and the content bytes (`werkzeug.FileStorage`). -/
structure FilePart where
  filename : Path
  content : Bytes
deriving DecidableEq

/-- An HTTP upload request: the parsed multipart parts, keyed by field
name (`request.files`). -/
structure Request where
  files : List (String × FilePart)
deriving DecidableEq

/-- `request.files[k]`: the first part under field name `k`, if any
(Flask raises `BadRequestKeyError` when absent, modelled by `none`). -/
def getFile (r : Request) (k : String) : Option FilePart :=
  (r.files.find? (fun kv => kv.1 = k)).map (fun kv => kv.2)

/-- The contents of storage: which bytes sit at which path. -/
def Store := Path → Option Bytes

/-- Create-or-overwrite the single path `p` with content `c`. -/
def Store.write (s : Store) (p : Path) (c : Bytes) : Store :=
  fun q => if q = p then some c else s q

/-- The filesystem as the service sees it: the stored files plus an
OS-level oracle saying which paths a write would succeed on
(permissions, disk space, resolvability). -/
structure FS where
  store : Store
  writable : Path → Bool

/-- `FileStorage.save(p)`: open `p` for writing and copy the content
in.  A path ending in the separator names a directory, and opening it
for writing always fails (`IsADirectoryError`); otherwise the write
succeeds exactly when the OS permits it.  `none` is a raised `OSError`;
on failure nothing is recorded at `p`. -/
def FS.save (fs : FS) (p : Path) (c : Bytes) : Option FS :=
  if endsWithSep p then none
  else if fs.writable p then some { fs with store := fs.store.write p c }
  else none

/-- An HTTP response: status code and body. -/
structure Response where
  status : Nat
  body : String
deriving DecidableEq

/-- The shared-storage root, `'/shared'` in the source. -/
def SHARED_DIR : Path := ("/shared").data

/-- The `sync_file` handler under Flask dispatch: look up the `'file'`
part (absent → `BadRequestKeyError` → 400), save its content at
`os.path.join('/shared', filename)` (a raised `OSError` → 500), and
answer 200 `File synced successfully`. -/
def sync_file (fs : FS) (req : Request) : FS × Response :=
  match getFile req "file" with
  | none => (fs, ⟨400, "Bad Request"⟩)
  | some f =>
    match fs.save (posixJoin SHARED_DIR f.filename) f.content with
    | none => (fs, ⟨500, "Internal Server Error"⟩)
    | some fs2 => (fs2, ⟨200, "File synced successfully"⟩)

/-- The destination path the handler computes for a request, when the
`'file'` part is present. -/
def destOf (req : Request) : Option Path :=
  (getFile req "file").map (fun f => posixJoin SHARED_DIR f.filename)

/-! ### Concrete instances used by witnesses -/

/-- A filesystem with empty storage on which every write succeeds. -/
def fsFree : FS := ⟨fun _ => none, fun _ => true⟩

/-- A filesystem on which every write is denied by the OS. -/
def fsDenied : FS := ⟨fun _ => none, fun _ => false⟩

/-- A well-formed upload: field `file`, filename `report.csv`,
content bytes `a,b` (97, 44, 98). -/
def reqReport : Request := ⟨[("file", ⟨("report.csv").data, [97, 44, 98]⟩)]⟩

/-- A request whose only part is under field name `data`, not `file`. -/
def reqNoFilePart : Request := ⟨[("data", ⟨("x.txt").data, [1]⟩)]⟩

/-- A traversal upload: filename `../../etc/passwd`. -/
def reqTraversal : Request := ⟨[("file", ⟨("../../etc/passwd").data, [82, 48, 48, 84]⟩)]⟩

/-- An upload whose filename `../owned.txt` steps out of the root. -/
def reqEscape : Request := ⟨[("file", ⟨("../owned.txt").data, [66]⟩)]⟩

/-- An upload whose declared filename is empty. -/
def reqEmptyName : Request := ⟨[("file", ⟨[], [7]⟩)]⟩

/-- An upload whose declared filename is the absolute path
`/etc/cron.d/job`. -/
def reqAbsolute : Request := ⟨[("file", ⟨("/etc/cron.d/job").data, [106]⟩)]⟩

/-! ### Helper lemmas -/

/-- Appending a nonempty suffix decides `endsWithSep`. -/
theorem endsWithSep_append (xs fn : Path) (h : fn ≠ []) :
    endsWithSep (xs ++ fn) = endsWithSep fn := by
  induction xs with
  | nil => rfl
  | cons x xs ih =>
    cases hx : xs ++ fn with
    | nil => exact absurd (List.append_eq_nil.mp hx).2 h
    | cons y ys =>
      rw [List.cons_append, hx]
      show endsWithSep (y :: ys) = endsWithSep fn
      rw [← hx, ih]

/-- Joining the storage root with a relative filename inserts the
separator. -/
theorem posixJoin_shared (fn : Path) (h : startsWithSep fn = false) :
    posixJoin SHARED_DIR fn = SHARED_DIR ++ [sep] ++ fn := by
  unfold posixJoin
  rw [h]
  simp only [Bool.false_eq_true, if_false]
  rw [if_neg (by decide : ¬(SHARED_DIR = [] ∨ endsWithSep SHARED_DIR = true))]

/-- Writing the same path and content twice is one write. -/
theorem Store.write_write (s : Store) (p : Path) (c : Bytes) :
    Store.write (Store.write s p c) p c = Store.write s p c := by
  funext q
  unfold Store.write
  split <;> rfl

/-! ### Claims -/

/-- C1: a valid upload whose declared filename is nonempty, relative
and not a directory name, sent to a filesystem that permits the write,
is answered with HTTP 200 and the literal body
`File synced successfully`, and afterwards the bytes at the storage
root joined with the filename are exactly the uploaded content. -/
theorem sync_file_valid_upload (fs : FS) (req : Request) (fn : Path) (c : Bytes)
    (hget : getFile req "file" = some ⟨fn, c⟩)
    (hne : fn ≠ [])
    (habs : startsWithSep fn = false)
    (hdir : endsWithSep fn = false)
    (hw : fs.writable (SHARED_DIR ++ [sep] ++ fn) = true) :
    (sync_file fs req).2 = ⟨200, "File synced successfully"⟩ ∧
    (sync_file fs req).1.store (SHARED_DIR ++ [sep] ++ fn) = some c := by
  have hj : posixJoin SHARED_DIR fn = SHARED_DIR ++ [sep] ++ fn := posixJoin_shared fn habs
  have hends : endsWithSep (SHARED_DIR ++ [sep] ++ fn) = false := by
    rw [List.append_assoc, endsWithSep_append _ _ (by simp)]
    cases fn with
    | nil => exact absurd rfl hne
    | cons a l => exact hdir
  have hends2 : endsWithSep (SHARED_DIR ++ sep :: fn) = false := by
    rw [← List.singleton_append, ← List.append_assoc]; exact hends
  have hw2 : fs.writable (SHARED_DIR ++ sep :: fn) = true := by
    rw [← List.singleton_append, ← List.append_assoc]; exact hw
  simp [sync_file, hget, FS.save, hj, hends2, hw2, Store.write]

/-- Witness for C1 at the spec's own example: `report.csv` with
content `a,b`. -/
theorem sync_file_valid_upload_witness :
    (sync_file fsFree reqReport).2 = ⟨200, "File synced successfully"⟩ ∧
    (sync_file fsFree reqReport).1.store (SHARED_DIR ++ [sep] ++ ("report.csv").data) =
      some [97, 44, 98] :=
  sync_file_valid_upload fsFree reqReport ("report.csv").data [97, 44, 98]
    (by decide) (by decide) (by decide) (by decide) rfl

/-- C2: the handler performs no filename validation, so an upload with
declared filename `../../etc/passwd` is answered 200 and its content
is written at `/shared/../../etc/passwd`, a path that resolves outside
the storage root — the claimed 4xx rejection never happens. -/
theorem sync_file_traversal_accepted :
    (sync_file fsFree reqTraversal).2.status = 200 ∧
    (sync_file fsFree reqTraversal).1.store
      (posixJoin SHARED_DIR ("../../etc/passwd").data) = some [82, 48, 48, 84] ∧
    withinRoot (posixJoin SHARED_DIR ("../../etc/passwd").data) SHARED_DIR = false := by
  refine ⟨rfl, ?_, by decide⟩
  simp [sync_file, fsFree, reqTraversal, getFile, FS.save, Store.write,
    show endsWithSep (posixJoin SHARED_DIR ("../../etc/passwd").data) = false from by decide]

/-- C3: the all-paths-under-the-root invariant fails: uploading
filename `../owned.txt` stores its bytes at a destination path that
does not resolve within the storage root. -/
theorem sync_file_invariant_violated :
    (sync_file fsFree reqEscape).1.store
      (posixJoin SHARED_DIR ("../owned.txt").data) = some [66] ∧
    withinRoot (posixJoin SHARED_DIR ("../owned.txt").data) SHARED_DIR = false := by
  refine ⟨?_, by decide⟩
  simp [sync_file, fsFree, reqEscape, getFile, FS.save, Store.write,
    show endsWithSep (posixJoin SHARED_DIR ("../owned.txt").data) = false from by decide]

/-- C4: a POST whose multipart body has no part named `file` makes
`request.files['file']` raise `BadRequestKeyError`, answered HTTP 400,
and the filesystem is left exactly as it was. -/
theorem sync_file_missing_part (fs : FS) (req : Request)
    (h : getFile req "file" = none) :
    (sync_file fs req).2.status = 400 ∧ (sync_file fs req).1 = fs := by
  simp [sync_file, h]

/-- Witness for C4: a body whose only part is named `data`. -/
theorem sync_file_missing_part_witness :
    (sync_file fsFree reqNoFilePart).2.status = 400 ∧
    (sync_file fsFree reqNoFilePart).1 = fsFree :=
  sync_file_missing_part fsFree reqNoFilePart (by decide)

/-- C5: storage-level idempotence: running the handler twice on the
identical request leaves exactly the stored bytes that one run leaves
— the second run overwrites the destination with identical content. -/
theorem sync_file_idempotent (fs : FS) (req : Request) :
    (sync_file (sync_file fs req).1 req).1.store = (sync_file fs req).1.store := by
  cases hget : getFile req "file" with
  | none => simp [sync_file, hget]
  | some f =>
    by_cases hd : endsWithSep (posixJoin SHARED_DIR f.filename) = true
    · simp [sync_file, hget, FS.save, hd]
    · by_cases hw : fs.writable (posixJoin SHARED_DIR f.filename) = true
      · simp [sync_file, hget, FS.save, hd, hw, Store.write_write]
      · simp [sync_file, hget, FS.save, hd, hw]

/-- C6: when the storage write raises (`FS.save` fails), the handler
never reaches its success return: Flask answers HTTP 500, the body is
not the success confirmation, and storage is unchanged (the file is
absent, not half-reported as written). -/
theorem sync_file_write_failure (fs : FS) (req : Request) (f : FilePart)
    (hget : getFile req "file" = some f)
    (hfail : fs.save (posixJoin SHARED_DIR f.filename) f.content = none) :
    (sync_file fs req).2.status = 500 ∧
    (sync_file fs req).2.body ≠ "File synced successfully" ∧
    (sync_file fs req).1 = fs := by
  simp [sync_file, hget, hfail]

/-- Witness for C6: a filesystem on which the OS denies every write. -/
theorem sync_file_write_failure_witness :
    (sync_file fsDenied reqReport).2.status = 500 ∧
    (sync_file fsDenied reqReport).2.body ≠ "File synced successfully" ∧
    (sync_file fsDenied reqReport).1 = fsDenied :=
  sync_file_write_failure fsDenied reqReport ⟨("report.csv").data, [97, 44, 98]⟩
    (by decide) (by rfl)

/-- C7: an upload with an empty declared filename is not rejected with
a 4xx: the destination becomes `/shared/` — the root directory itself —
so the save raises `IsADirectoryError` and the response is HTTP 500,
outside the 4xx range. -/
theorem sync_file_empty_filename_500 :
    (sync_file fsFree reqEmptyName).2.status = 500 ∧
    ¬(400 ≤ (sync_file fsFree reqEmptyName).2.status ∧
      (sync_file fsFree reqEmptyName).2.status < 500) ∧
    (sync_file fsFree reqEmptyName).1.store = fsFree.store := by
  exact ⟨rfl, by decide, rfl⟩

/-- C8: frame condition: a request answered 200 changes storage by
exactly one create-or-overwrite of the single computed destination
path (every other path keeps its prior content, by definition of
`Store.write`); a request not answered 200 changes storage not at
all. -/
theorem sync_file_frame (fs : FS) (req : Request) :
    ((sync_file fs req).2.status = 200 →
      ∃ f, getFile req "file" = some f ∧
        (sync_file fs req).1.store =
          Store.write fs.store (posixJoin SHARED_DIR f.filename) f.content) ∧
    ((sync_file fs req).2.status ≠ 200 → (sync_file fs req).1.store = fs.store) := by
  cases hget : getFile req "file" with
  | none => exact ⟨fun h => by simp [sync_file, hget] at h, fun _ => by simp [sync_file, hget]⟩
  | some f =>
    cases hs : fs.save (posixJoin SHARED_DIR f.filename) f.content with
    | none => exact ⟨fun h => by simp [sync_file, hget, hs] at h,
        fun _ => by simp [sync_file, hget, hs]⟩
    | some fs2 =>
      refine ⟨fun _ => ⟨f, rfl, ?_⟩, fun h => absurd (by simp [sync_file, hget, hs]) h⟩
      have : fs2.store = Store.write fs.store (posixJoin SHARED_DIR f.filename) f.content := by
        unfold FS.save at hs
        by_cases hd : endsWithSep (posixJoin SHARED_DIR f.filename) = true
        · simp [hd] at hs
        · by_cases hw : fs.writable (posixJoin SHARED_DIR f.filename) = true
          · simp [hd, hw] at hs
            rw [← hs]
          · simp [hd, hw] at hs
      simpa [sync_file, hget, hs] using this

/-- Witness for C8, success branch, at the `report.csv` upload. -/
theorem sync_file_frame_witness :
    ∃ f, getFile reqReport "file" = some f ∧
      (sync_file fsFree reqReport).1.store =
        Store.write fsFree.store (posixJoin SHARED_DIR f.filename) f.content :=
  (sync_file_frame fsFree reqReport).1 rfl

/-- C10: `os.path.join` discards its first argument when the second is
absolute, so an upload whose declared filename starts with `/` is
saved at exactly that client-chosen path, not under the storage
root. -/
theorem sync_file_absolute_filename (fs : FS) (req : Request) (fn : Path) (c : Bytes)
    (hget : getFile req "file" = some ⟨fn, c⟩)
    (habs : startsWithSep fn = true)
    (hdir : endsWithSep fn = false)
    (hw : fs.writable fn = true) :
    posixJoin SHARED_DIR fn = fn ∧
    (sync_file fs req).2.status = 200 ∧
    (sync_file fs req).1.store fn = some c := by
  have hj : posixJoin SHARED_DIR fn = fn := by
    unfold posixJoin
    rw [habs, if_pos rfl]
  refine ⟨hj, ?_, ?_⟩ <;>
    simp [sync_file, hget, hj, FS.save, hdir, hw, Store.write]

/-- Witness for C10: filename `/etc/cron.d/job` lands at
`/etc/cron.d/job` itself. -/
theorem sync_file_absolute_filename_witness :
    posixJoin SHARED_DIR ("/etc/cron.d/job").data = ("/etc/cron.d/job").data ∧
    (sync_file fsFree reqAbsolute).2.status = 200 ∧
    (sync_file fsFree reqAbsolute).1.store (("/etc/cron.d/job").data) = some [106] :=
  sync_file_absolute_filename fsFree reqAbsolute ("/etc/cron.d/job").data [106]
    (by decide) (by decide) (by decide) rfl

end SyncService
